import Mathlib

/-!
Verification of the simple-weather-app core against its specification.

The Python source is shallowly embedded: SQLite tables become Lean lists of
row structures, the SQL statements of `weather_app/db/database.py` become pure
functions over those lists, and the HTTP client of
`weather_app/api/weather_api.py` becomes a function parameterised by a
transport environment (URL → response).  Machine floats carried by the JSON
payloads are modelled as rationals, with an explicit positive/negative
infinity carrier for the sentinel values used by the forecast aggregation.
-/

namespace WeatherApp

/-! ## Database rows (`weather_app/db/database.py`, `create_tables`) -/

/-- A row of the `cities` table:
`id INTEGER PRIMARY KEY, country TEXT, name TEXT, ru_name TEXT, lat REAL,
lon REAL, favorite BOOLEAN DEFAULT (0)`.  `ru_name` is nullable; `favorite`
is stored as an SQLite integer (Python `True`/`False` bind as 1/0). -/
structure CityRow where
  id : Int
  country : String
  name : String
  ru_name : Option String
  lat : ℚ
  lon : ℚ
  favorite : Int
  deriving DecidableEq

/-- A row of the `settings` table: `setting_name TEXT UNIQUE, setting_value
TEXT`.  The `id INTEGER PRIMARY KEY AUTOINCREMENT` column is not modelled:
no query of the application reads or filters on it. -/
structure SettingRow where
  setting_name : String
  setting_value : String
  deriving DecidableEq

/-- The database state: the two tables created by `Database.create_tables`. -/
structure Database where
  cities : List CityRow
  settings : List SettingRow
  deriving DecidableEq

/-! ## String helpers used by `get_cities` -/

/-- Python `str.upper()` restricted to the scripts the application stores:
ASCII letters and Cyrillic (`а`–`я` → `А`–`Я`, `ё` → `Ё`); every other
character is left unchanged. -/
def pyUpperChar (c : Char) : Char :=
  if c.val ≥ 0x61 ∧ c.val ≤ 0x7a then Char.ofNat (c.toNat - 0x20)
  else if c.val ≥ 0x430 ∧ c.val ≤ 0x44f then Char.ofNat (c.toNat - 0x20)
  else if c.val = 0x451 then Char.ofNat 0x401
  else c

/-- `Database.__to_ascii_equivalent`: `char.encode().decode('utf-8')` is the
identity on text, so the transform is just `str.upper()`. -/
def toAsciiEquivalent (s : String) : String :=
  String.mk (s.toList.map pyUpperChar)

/-- SQLite ASCII case folding: `LIKE` (and the `NOCASE` collation) fold only
the ASCII range `a`–`z`. -/
def sqliteUpperChar (c : Char) : Char :=
  if c.val ≥ 0x61 ∧ c.val ≤ 0x7a then Char.ofNat (c.toNat - 0x20) else c

/-- Boolean containment test on character lists (`p` occurs contiguously in
`l`). -/
def containsSub (p l : List Char) : Bool :=
  match l with
  | [] => p.isEmpty
  | _ :: t => p.isPrefixOf l || containsSub p t

/-- `column LIKE '%pat%'` under SQLite's default ASCII-only case folding:
`pat` occurs as a substring of `s`, comparing ASCII letters case-insensitively.
(The user-supplied text is interpolated literally; claims never exercise
`%`/`_` wildcards inside it.) -/
def likeNocase (pat s : String) : Bool :=
  containsSub (pat.toList.map sqliteUpperChar) (s.toList.map sqliteUpperChar)

/-- Python truthiness of the optional string filters (`if country:` treats
both `None` and `""` as "no filter"). -/
def optTruthy : Option String → Bool
  | none => false
  | some s => !(s == "")

/-! ## `get_cities`: WHERE filter and ORDER BY -/

/-- The `WHERE` clause of `get_cities`: always `ru_name IS NOT NULL`; an
exact `country = ?` filter when a non-empty country is given; and
`(ru_name COLLATE NOCASE LIKE '%upper(q)%' OR ru_name COLLATE NOCASE LIKE
'%q%')` when a non-empty name query is given. -/
def cityMatches (country ru_name : Option String) (r : CityRow) : Bool :=
  r.ru_name.isSome &&
  (if optTruthy country then r.country == country.getD "" else true) &&
  (if optTruthy ru_name then
      (likeNocase (toAsciiEquivalent (ru_name.getD "")) (r.ru_name.getD "") ||
       likeNocase (ru_name.getD "") (r.ru_name.getD ""))
    else true)

/-- The rank of the `CASE WHEN country = 'RU' THEN 0 ELSE 1 END` term. -/
def ruCase (r : CityRow) : Nat :=
  if r.country = "RU" then 0 else 1

/-- The `ORDER BY favorite DESC, CASE WHEN country = 'RU' THEN 0 ELSE 1 END,
country` comparison, as a total boolean preorder. -/
def citiesLe (a b : CityRow) : Bool :=
  if a.favorite = b.favorite then
    if ruCase a = ruCase b then decide (a.country ≤ b.country)
    else decide (ruCase a < ruCase b)
  else decide (b.favorite < a.favorite)

/-- `Database.get_cities`: filter the `cities` table and sort it by the
`ORDER BY` key (ties keep the store's natural row order).  The optional
`fields` projection of the Python method only narrows the selected columns
and is not modelled; whole rows are returned. -/
def Database.get_cities (db : Database) (country ru_name : Option String) :
    List CityRow :=
  (db.cities.filter (cityMatches country ru_name)).mergeSort citiesLe

/-! ## Favorites and settings -/

/-- `Database.is_city_favorite`: `SELECT favorite FROM cities WHERE id = ?`,
then `bool(result and result[0] == 1)` — false when no row exists, otherwise
true exactly when the stored value equals 1. -/
def Database.is_city_favorite (db : Database) (city_id : Int) : Bool :=
  match db.cities.find? (fun r => r.id == city_id) with
  | none => false
  | some r => r.favorite == 1

/-- `Database.update_city_favorite`: `UPDATE cities SET favorite = ? WHERE
id = ?`; a Python bool binds as 1/0; rows with other ids are untouched and a
missing id makes the statement a no-op. -/
def Database.update_city_favorite (db : Database) (city_id : Int)
    (is_favorite : Bool) : Database :=
  { db with
    cities := db.cities.map (fun r =>
      if r.id == city_id then
        { r with favorite := if is_favorite then 1 else 0 }
      else r) }

/-- `Database.set_setting`: `INSERT INTO settings (setting_name,
setting_value) VALUES (?, ?) ON CONFLICT(setting_name) DO UPDATE SET
setting_value=?` — update the conflicting row if the name exists, otherwise
insert a fresh row. -/
def Database.set_setting (db : Database) (name value : String) : Database :=
  { db with
    settings :=
      if db.settings.any (fun p => p.setting_name == name) then
        db.settings.map (fun p =>
          if p.setting_name == name then { p with setting_value := value }
          else p)
      else
        db.settings ++ [{ setting_name := name, setting_value := value }] }

/-- `Database.get_setting`: `SELECT setting_value FROM settings WHERE
setting_name = ?`, returning `None` when no row matches. -/
def Database.get_setting (db : Database) (name : String) : Option String :=
  (db.settings.find? (fun p => p.setting_name == name)).map
    (fun p => p.setting_value)

/-! ## Floats with infinities

The forecast aggregation of `weather_api.py` seeds its accumulators with
`float('inf')` / `float('-inf')`.  Payload temperatures are finite (modelled
as rationals); the carrier below adds the two infinities with the IEEE
comparison behaviour on this NaN-free fragment. -/

/-- A Python float that is either `inf`, `-inf`, or a finite value. -/
inductive PFloat where
  | inf : PFloat
  | ninf : PFloat
  | val : ℚ → PFloat
  deriving DecidableEq

/-- Strict `<` on the NaN-free float fragment. -/
def PFloat.plt : PFloat → PFloat → Bool
  | .ninf, .ninf => false
  | .ninf, _ => true
  | _, .ninf => false
  | .inf, _ => false
  | _, .inf => true
  | .val a, .val b => decide (a < b)

/-- Python `min(a, b)`: returns `b` when `b < a`, else `a`. -/
def PFloat.pmin (a b : PFloat) : PFloat := if PFloat.plt b a then b else a

/-- Python `max(a, b)`: returns `b` when `a < b`, else `a`. -/
def PFloat.pmax (a b : PFloat) : PFloat := if PFloat.plt a b then b else a

/-! ## The HTTP transport (`requests`)

`requests.get` is modelled as a lookup in a caller-supplied environment
mapping a URL (and optional query parameters) to either a transport error or
a response carrying a status code and a typed body.  One behaviour of the
library itself is kept: a URL without an `http://`/`https://` scheme — in
particular the empty string — raises `MissingSchema` (a `RequestException`)
before any network activity. -/

/-- Exceptions raised by the `requests` library. -/
inductive ReqErr where
  | missingSchema : ReqErr
  | httpError : Nat → ReqErr
  | connectionError : ReqErr
  deriving DecidableEq

/-- An HTTP response: status code plus a parsed body. -/
structure HttpResp (α : Type) where
  status : Nat
  body : α
  deriving DecidableEq

/-- The query parameters sent by `WeatherAPI`: `self.default_params.copy()`
plus the `id` entry. -/
structure RequestParams where
  units : String
  lang : String
  appid : Option String
  id : Int
  deriving DecidableEq

/-- `str.startswith`, computed on the character lists. -/
def pyStartsWith (s p : String) : Bool :=
  p.toList.isPrefixOf s.toList

/-- `str.endswith`, computed on the character lists. -/
def pyEndsWith (s p : String) : Bool :=
  p.toList.reverse.isPrefixOf s.toList.reverse

/-- Does the URL carry a scheme `requests` accepts? -/
def hasScheme (url : String) : Bool :=
  pyStartsWith url "http://" || pyStartsWith url "https://"

/-- `requests.get(url, params=...)` against a transport environment: a
schemeless URL (e.g. `""`) fails with `MissingSchema` without consulting the
environment. -/
def requestsGet {α : Type} (env : String → Option RequestParams →
    Except ReqErr (HttpResp α)) (url : String)
    (params : Option RequestParams) : Except ReqErr (HttpResp α) :=
  if hasScheme url then env url params else .error .missingSchema

/-- `Response.raise_for_status()`: raises `HTTPError` (a `RequestException`)
for status codes ≥ 400. -/
def raiseForStatus {α : Type} (r : HttpResp α) : Except ReqErr (HttpResp α) :=
  if 400 ≤ r.status then .error (.httpError r.status) else .ok r

/-! ## Provider payloads for the current-weather endpoint

Nested JSON objects become structures of `Option` fields: `d.get(k, v)`
reads the field with a default, while `d[k]` raises `KeyError(k)` when the
field is absent. -/

/-- The `sys` object of a current-weather response. -/
structure SysObj where
  country : Option String
  sunrise : Option Int
  sunset : Option Int
  deriving DecidableEq

/-- The `main` object of a current-weather response. -/
structure MainObj where
  temp : Option ℚ
  feels_like : Option ℚ
  temp_min : Option ℚ
  temp_max : Option ℚ
  pressure : Option ℚ
  humidity : Option ℚ
  deriving DecidableEq

/-- The `wind` object of a current-weather response. -/
structure WindObj where
  speed : Option ℚ
  deg : Option ℚ
  gust : Option ℚ
  deriving DecidableEq

/-- One element of the `weather` array. -/
structure WeatherObj where
  description : Option String
  icon : Option String
  deriving DecidableEq

/-- The `clouds` object of a current-weather response. -/
structure CloudsObj where
  all : Option ℚ
  deriving DecidableEq

/-- A parsed 2xx body of the current-weather endpoint. -/
structure CurrentResponse where
  name : Option String
  sys : Option SysObj
  main : Option MainObj
  visibility : Option ℚ
  wind : Option WindObj
  weather : Option (List WeatherObj)
  clouds : Option CloudsObj
  timezone : Option Int
  deriving DecidableEq

/-- The `weather_info` dict built by `fetch_weather_by_city_id`; `pixmap`
holds the icon image bytes (`QPixmap.loadFromData` accepts any bytes). -/
structure WeatherInfo where
  city : String
  country : String
  temperature : Option ℚ
  feels_like : Option ℚ
  temp_min : Option ℚ
  temp_max : Option ℚ
  pressure : Option ℚ
  humidity : Option ℚ
  visibility : Option ℚ
  wind_speed : Option ℚ
  wind_deg : Option ℚ
  wind_gust : Option ℚ
  description : String
  icon : String
  clouds : Option ℚ
  sunrise : String
  sunset : String
  timezone : Option Int
  pixmap : String
  deriving DecidableEq

/-- Errors escaping `fetch_weather_by_city_id` / `fetch_forecast_by_city_id`:
the `except` clauses wrap a `RequestException` or a `KeyError` (which carries
the missing key's name) into `RuntimeError`; an `IndexError` from
`data["weather"][0]` is not caught and propagates as-is. -/
inductive PyErr where
  | runtimeRequestError : ReqErr → PyErr
  | runtimeDataError : String → PyErr
  | indexError : PyErr
  deriving DecidableEq

/-- `d[k]` on a modelled JSON object: `KeyError(k)` when the field is
absent. -/
def getKey {α : Type} (o : Option α) (k : String) : Except PyErr α :=
  match o with
  | none => .error (.runtimeDataError k)
  | some v => .ok v

/-- Zero-padding to two digits, as produced by `strftime`. -/
def pad2 (n : Nat) : String :=
  if n < 10 then "0" ++ toString n else toString n

/-- `datetime.fromtimestamp(t, tz=timezone.utc).strftime('%H:%M:%S')`:
the epoch second reduced modulo 86400 (Euclidean, matching Python's floor
division for the positive modulus), rendered as `HH:MM:SS`. -/
def fmtTimeUTC (t : Int) : String :=
  let s := (t.emod 86400).toNat
  pad2 (s / 3600) ++ ":" ++ pad2 (s % 3600 / 60) ++ ":" ++ pad2 (s % 60)

/-- The provider's icon CDN URL for an icon identifier. -/
def iconUrl (icon : String) : String :=
  "https://openweathermap.org/img/wn/" ++ icon ++ "@2x.png"

/-! ## `WeatherAPI` -/

/-- `self.default_params`: `units`, `lang` and the `appid` captured at
construction (`get_setting` may return `None`). -/
structure DefaultParams where
  units : String
  lang : String
  appid : Option String
  deriving DecidableEq

/-- The state of a `WeatherAPI` instance after `__init__`. -/
structure WeatherAPI where
  api_key : Option String
  base_url : String
  forecast_url : String
  default_params : DefaultParams
  deriving DecidableEq

/-- `WeatherAPI.__init__`: reads `OPEN_WEATHER_MAP_API_KEY` from the settings
store once and captures it in `api_key` and `default_params`. -/
def weatherAPIInit (db : Database) : WeatherAPI :=
  let key := db.get_setting "OPEN_WEATHER_MAP_API_KEY"
  { api_key := key
    base_url := "https://api.openweathermap.org/data/2.5/weather"
    forecast_url := "https://api.openweathermap.org/data/2.5/forecast"
    default_params := { units := "metric", lang := "ru", appid := key } }

/-- `params = self.default_params.copy(); params["id"] = city_id`. -/
def mkRequestParams (api : WeatherAPI) (city_id : Int) : RequestParams :=
  { units := api.default_params.units
    lang := api.default_params.lang
    appid := api.default_params.appid
    id := city_id }

/-- The construction of the `weather_info` dict from a 2xx body, field by
field in source order: `.get` with a default for the leaf fields, `d[k]`
(i.e. `KeyError`) for the container objects and for `sys["sunrise"]` /
`sys["sunset"]`, and `data["weather"][0]` raising `IndexError` on an empty
array. -/
def parseCurrentWeather (data : CurrentResponse) : Except PyErr WeatherInfo := do
  let city := data.name.getD "Неизвестный город"
  let sys ← getKey data.sys "sys"
  let country := sys.country.getD "Неизвестная страна"
  let main ← getKey data.main "main"
  let wind ← getKey data.wind "wind"
  let weatherArr ← getKey data.weather "weather"
  let w0 ← match weatherArr with
    | [] => Except.error PyErr.indexError
    | w :: _ => Except.ok w
  let clouds ← getKey data.clouds "clouds"
  let sunrise ← getKey sys.sunrise "sunrise"
  let sunset ← getKey sys.sunset "sunset"
  return {
    city := city
    country := country
    temperature := main.temp
    feels_like := main.feels_like
    temp_min := main.temp_min
    temp_max := main.temp_max
    pressure := main.pressure
    humidity := main.humidity
    visibility := data.visibility
    wind_speed := wind.speed
    wind_deg := wind.deg
    wind_gust := wind.gust
    description := w0.description.getD "Описание не найдено"
    icon := w0.icon.getD ""
    clouds := clouds.all
    sunrise := fmtTimeUTC sunrise
    sunset := fmtTimeUTC sunset
    timezone := data.timezone
    pixmap := "" }

/-- `WeatherAPI.fetch_weather_by_city_id`: one GET on `base_url` with the
captured parameters plus `id`, `raise_for_status`, construction of the
`weather_info` dict, then a second GET on the icon CDN whose body becomes the
pixmap.  `RequestException`s and `KeyError`s are wrapped into
`RuntimeError`. -/
def fetch_weather_by_city_id (api : WeatherAPI) (city_id : Int)
    (wEnv : String → Option RequestParams → Except ReqErr (HttpResp CurrentResponse))
    (iconEnv : String → Option RequestParams → Except ReqErr (HttpResp String)) :
    Except PyErr WeatherInfo := do
  let params := mkRequestParams api city_id
  let resp ← (requestsGet wEnv api.base_url (some params)).mapError
    PyErr.runtimeRequestError
  let resp ← (raiseForStatus resp).mapError PyErr.runtimeRequestError
  let info ← parseCurrentWeather resp.body
  let iconResp ← (requestsGet iconEnv (iconUrl info.icon) none).mapError
    PyErr.runtimeRequestError
  let iconResp ← (raiseForStatus iconResp).mapError PyErr.runtimeRequestError
  return { info with pixmap := iconResp.body }

/-! ## Dates and the forecast endpoint -/

/-- A UTC calendar date, as produced by `datetime.now(timezone.utc).date()`. -/
structure Date where
  year : Nat
  month : Nat
  day : Nat
  deriving DecidableEq

/-- Gregorian leap-year test. -/
def isLeap (y : Nat) : Bool :=
  (y % 4 == 0 && y % 100 != 0) || y % 400 == 0

/-- Days in a Gregorian month. -/
def daysInMonth (y m : Nat) : Nat :=
  if m = 2 then (if isLeap y then 29 else 28)
  else if m = 4 ∨ m = 6 ∨ m = 9 ∨ m = 11 then 30
  else 31

/-- `date + timedelta(days=1)`. -/
def nextDay (d : Date) : Date :=
  if d.day < daysInMonth d.year d.month then { d with day := d.day + 1 }
  else if d.month < 12 then { year := d.year, month := d.month + 1, day := 1 }
  else { year := d.year + 1, month := 1, day := 1 }

/-- Zero-padding to four digits, as produced by `strftime('%Y')` for the
years in use. -/
def pad4 (n : Nat) : String :=
  if n < 10 then "000" ++ toString n
  else if n < 100 then "00" ++ toString n
  else if n < 1000 then "0" ++ toString n
  else toString n

/-- `date.strftime("%Y-%m-%d")`. -/
def fmtDate (d : Date) : String :=
  pad4 d.year ++ "-" ++ pad2 d.month ++ "-" ++ pad2 d.day

/-- The three target dates: `current_date + timedelta(days=i)` for
`i = 1, 2, 3`, formatted `"%Y-%m-%d"`. -/
def targetDates (today : Date) : List String :=
  [fmtDate (nextDay today), fmtDate (nextDay (nextDay today)),
   fmtDate (nextDay (nextDay (nextDay today)))]

/-- One element of the forecast `list`: `dt_txt`, `main.temp_min`,
`main.temp_max`, `weather[0].description`, `weather[0].icon`.  The code
indexes these fields directly, assuming this shape; field-level absence is
not exercised by any claim and is not modelled. -/
structure ForecastSample where
  dt_txt : String
  temp_min : ℚ
  temp_max : ℚ
  description : String
  icon : String
  deriving DecidableEq

/-- A parsed 2xx body of the forecast endpoint; `data["list"]` raises
`KeyError` when the key is absent. -/
structure ForecastResponse where
  list : Option (List ForecastSample)
  deriving DecidableEq

/-- One element of the returned forecast list; `pixmap` carries the icon
image bytes. -/
structure ForecastEntry where
  date : String
  temp_min : PFloat
  temp_max : PFloat
  description : String
  pixmap : String
  deriving DecidableEq

/-- `entry["dt_txt"].split()[0]`: the first whitespace-delimited token.
(On an all-whitespace `dt_txt` the Python expression would raise
`IndexError`; provider timestamps are `"YYYY-MM-DD HH:MM:SS"` and no claim
exercises that corner.) -/
def sampleDate (e : ForecastSample) : String :=
  String.mk ((e.dt_txt.toList.dropWhile (· = ' ')).takeWhile (· ≠ ' '))

/-- The per-date accumulator of the inner loop: `min_temp`, `max_temp`,
`description`, `icon_url`. -/
structure DayAgg where
  min_temp : PFloat
  max_temp : PFloat
  description : String
  icon_url : String
  deriving DecidableEq

/-- One iteration of the inner loop of `fetch_forecast_by_city_id`: on a
sample whose date matches the target, fold its temperatures into the min/max
accumulators, and when `dt_txt` ends with `"12:00:00"` overwrite the
description and icon URL. -/
def aggStep (target_date : String) (acc : DayAgg) (e : ForecastSample) :
    DayAgg :=
  if sampleDate e == target_date then
    let acc := { acc with
      min_temp := acc.min_temp.pmin (.val e.temp_min)
      max_temp := acc.max_temp.pmax (.val e.temp_max) }
    if pyEndsWith e.dt_txt "12:00:00" then
      { acc with description := e.description, icon_url := iconUrl e.icon }
    else acc
  else acc

/-- The full inner loop for one target date, starting at
`min_temp = float('inf')`, `max_temp = float('-inf')`, `description = ""`,
`icon_url = ""`. -/
def aggregateDate (target_date : String) (samples : List ForecastSample) :
    DayAgg :=
  samples.foldl (aggStep target_date) ⟨.inf, .ninf, "", ""⟩

/-- The outer loop of `fetch_forecast_by_city_id`: for each target date,
aggregate the samples, then GET the accumulated icon URL (the empty URL —
no 12:00:00 sample — fails with `MissingSchema`), `raise_for_status`, and
append the forecast entry. -/
def forecastLoop
    (iconEnv : String → Option RequestParams → Except ReqErr (HttpResp String))
    (samples : List ForecastSample) :
    List String → Except PyErr (List ForecastEntry)
  | [] => .ok []
  | target_date :: rest => do
    let agg := aggregateDate target_date samples
    let iconResp ← (requestsGet iconEnv agg.icon_url none).mapError
      PyErr.runtimeRequestError
    let iconResp ← (raiseForStatus iconResp).mapError PyErr.runtimeRequestError
    let tail ← forecastLoop iconEnv samples rest
    return { date := target_date, temp_min := agg.min_temp,
             temp_max := agg.max_temp, description := agg.description,
             pixmap := iconResp.body } :: tail

/-- `WeatherAPI.fetch_forecast_by_city_id`: one GET on `forecast_url` with
the captured parameters plus `id`, `raise_for_status`, `data["list"]`, then
the per-target-date aggregation loop.  `today` stands for
`datetime.now(timezone.utc).date()`. -/
def fetch_forecast_by_city_id (api : WeatherAPI) (city_id : Int) (today : Date)
    (fEnv : String → Option RequestParams → Except ReqErr (HttpResp ForecastResponse))
    (iconEnv : String → Option RequestParams → Except ReqErr (HttpResp String)) :
    Except PyErr (List ForecastEntry) := do
  let params := mkRequestParams api city_id
  let resp ← (requestsGet fEnv api.forecast_url (some params)).mapError
    PyErr.runtimeRequestError
  let resp ← (raiseForStatus resp).mapError PyErr.runtimeRequestError
  let samples ← getKey resp.body.list "list"
  forecastLoop iconEnv samples (targetDates today)

/-! ## The fetch orchestration (`home_page.py`, `update_weather`)

`update_weather` synchronously switches the stacked widget to the loading
screen, then starts a worker thread running `fetch_and_update`: it calls
`fetch_weather_by_city_id`, then `fetch_forecast_by_city_id`, and only after
both have returned queues `update_weather_ui` onto the UI thread.  An
exception from either fetch propagates out of the thread target: the thread
dies, nothing further runs, and no UI update or error notice is queued. -/

/-- What the stacked widget currently shows. -/
inductive Display where
  | loading : Display
  | ready : WeatherInfo → List ForecastEntry → Display
  deriving DecidableEq

/-- Observable steps of one `fetch_and_update` run. -/
inductive UIEvent where
  | callCurrent : UIEvent
  | callForecast : UIEvent
  | publish : WeatherInfo → List ForecastEntry → UIEvent
  deriving DecidableEq

/-- The worker body `fetch_and_update`, as the trace of steps it performs:
the current-weather fetch always runs first; the forecast fetch runs only if
it succeeded; `update_weather_ui` is queued only if both succeeded. -/
def fetch_and_update (api : WeatherAPI) (city_id : Int) (today : Date)
    (wEnv : String → Option RequestParams → Except ReqErr (HttpResp CurrentResponse))
    (fEnv : String → Option RequestParams → Except ReqErr (HttpResp ForecastResponse))
    (iconEnv : String → Option RequestParams → Except ReqErr (HttpResp String)) :
    List UIEvent :=
  match fetch_weather_by_city_id api city_id wEnv iconEnv with
  | .error _ => [.callCurrent]
  | .ok w =>
    match fetch_forecast_by_city_id api city_id today fEnv iconEnv with
    | .error _ => [.callCurrent, .callForecast]
    | .ok f => [.callCurrent, .callForecast, .publish w f]

/-- Effect of one event on the display: only a queued `update_weather_ui`
changes it. -/
def applyEvent (d : Display) : UIEvent → Display
  | .publish w f => .ready w f
  | _ => d

/-- `HomePage.update_weather`: the display is switched to the loading screen
before the worker starts (discarding whatever was shown), then the worker's
events are applied.  Returns the final display and the worker trace. -/
def update_weather (_prior : Display) (api : WeatherAPI) (city_id : Int)
    (today : Date)
    (wEnv : String → Option RequestParams → Except ReqErr (HttpResp CurrentResponse))
    (fEnv : String → Option RequestParams → Except ReqErr (HttpResp ForecastResponse))
    (iconEnv : String → Option RequestParams → Except ReqErr (HttpResp String)) :
    Display × List UIEvent :=
  let events := fetch_and_update api city_id today wEnv fEnv iconEnv
  (events.foldl applyEvent Display.loading, events)

/-! ## Concrete fixtures used by witnesses and counterexamples -/

/-- A favorite French city (first in natural row order). -/
def frRow : CityRow := ⟨1, "FR", "Paris", some "Париж", 1, 2, 1⟩

/-- A non-favorite home-country (`RU`) city. -/
def ruRow : CityRow := ⟨2, "RU", "Moscow", some "Москва", 3, 4, 0⟩

/-- A non-favorite German city. -/
def deRow : CityRow := ⟨3, "DE", "Berlin", some "Берлин", 5, 6, 0⟩

/-- A small city catalog. -/
def exDb : Database := ⟨[frRow, ruRow, deRow], []⟩

/-! ## Ordering lemmas for `get_cities` (claim C9) -/

/-- The `ORDER BY` comparison, spelt out as a lexicographic proposition. -/
theorem citiesLe_iff (a b : CityRow) :
    citiesLe a b = true ↔
      b.favorite < a.favorite ∨
        (a.favorite = b.favorite ∧
          (ruCase a < ruCase b ∨
            (ruCase a = ruCase b ∧ a.country ≤ b.country))) := by
  unfold citiesLe
  by_cases h1 : a.favorite = b.favorite <;>
    by_cases h2 : ruCase a = ruCase b <;>
      simp [h1, h2]

/-- Transitivity of the `ORDER BY` comparison. -/
theorem citiesLe_trans (a b c : CityRow) (h1 : citiesLe a b = true)
    (h2 : citiesLe b c = true) : citiesLe a c = true := by
  rw [citiesLe_iff] at h1 h2 ⊢
  rcases h1 with h1 | ⟨e1, h1⟩ <;> rcases h2 with h2 | ⟨e2, h2⟩
  · exact Or.inl (lt_trans h2 h1)
  · exact Or.inl (e2 ▸ h1)
  · exact Or.inl (e1 ▸ h2)
  · refine Or.inr ⟨e1.trans e2, ?_⟩
    rcases h1 with h1 | ⟨f1, h1⟩ <;> rcases h2 with h2 | ⟨f2, h2⟩
    · exact Or.inl (lt_trans h1 h2)
    · exact Or.inl (f2 ▸ h1)
    · exact Or.inl (f1 ▸ h2)
    · exact Or.inr ⟨f1.trans f2, le_trans h1 h2⟩

/-- Totality of the `ORDER BY` comparison. -/
theorem citiesLe_total (a b : CityRow) :
    (citiesLe a b || citiesLe b a) = true := by
  rw [Bool.or_eq_true, citiesLe_iff, citiesLe_iff]
  rcases lt_trichotomy a.favorite b.favorite with h | h | h
  · exact Or.inr (Or.inl h)
  · rcases lt_trichotomy (ruCase a) (ruCase b) with h' | h' | h'
    · exact Or.inl (Or.inr ⟨h, Or.inl h'⟩)
    · rcases le_total a.country b.country with h'' | h''
      · exact Or.inl (Or.inr ⟨h, Or.inr ⟨h', h''⟩⟩)
      · exact Or.inr (Or.inr ⟨h.symm, Or.inr ⟨h'.symm, h''⟩⟩)
    · exact Or.inr (Or.inr ⟨h.symm, Or.inl h'⟩)
  · exact Or.inl (Or.inl h)

/-- **C9**: every `get_cities` result is sorted by the `ORDER BY` key
(favorites first by descending flag, then the home country `'RU'`, then
alphabetically by country), it is a permutation of the rows passing the
`WHERE` clause, and any key-ordered pair of rows keeps its natural row order
(ties included, since tied rows satisfy the comparison both ways). -/
theorem claim_C9_ordering (db : Database) (country ru_name : Option String) :
    List.Pairwise (fun a b => citiesLe a b = true)
        (db.get_cities country ru_name) ∧
    (db.get_cities country ru_name).Perm
        (db.cities.filter (cityMatches country ru_name)) ∧
    ∀ a b : CityRow, citiesLe a b = true →
      [a, b].Sublist (db.cities.filter (cityMatches country ru_name)) →
      [a, b].Sublist (db.get_cities country ru_name) := by
  refine ⟨?_, ?_, ?_⟩
  · simpa using
      List.sorted_mergeSort citiesLe_trans citiesLe_total
        (db.cities.filter (cityMatches country ru_name))
  · exact List.mergeSort_perm _ _
  · intro a b hle hsub
    exact List.pair_sublist_mergeSort citiesLe_trans citiesLe_total hle hsub

/-- Witness for C9 at the spec's example catalog: the favorite `FR` row
precedes the non-favorite home (`RU`) row, which precedes the non-favorite
`DE` row. -/
theorem claim_C9_ordering_witness :
    List.Pairwise (fun a b => citiesLe a b = true)
        (exDb.get_cities none none) ∧
    (exDb.get_cities none none).Perm
        (exDb.cities.filter (cityMatches none none)) ∧
    [frRow, ruRow].Sublist (exDb.get_cities none none) ∧
    [ruRow, deRow].Sublist (exDb.get_cities none none) :=
  ⟨(claim_C9_ordering exDb none none).1,
   (claim_C9_ordering exDb none none).2.1,
   (claim_C9_ordering exDb none none).2.2 frRow ruRow (by decide) (by decide),
   (claim_C9_ordering exDb none none).2.2 ruRow deRow (by decide) (by decide)⟩

/-! ## C8: no null `ru_name` ever escapes `get_cities` -/

/-- **C8**: for every country filter and name query (including none), no row
returned by `get_cities` has a null `ru_name`. -/
theorem claim_C8_no_null_localized (db : Database)
    (country ru_name : Option String) (r : CityRow)
    (h : r ∈ db.get_cities country ru_name) : r.ru_name ≠ none := by
  unfold Database.get_cities at h
  have h2 := (List.mem_filter.mp (List.mem_mergeSort.mp h)).2
  unfold cityMatches at h2
  simp only [Bool.and_eq_true] at h2
  have h3 : r.ru_name.isSome = true := h2.1.1
  intro hnone
  rw [hnone] at h3
  simp at h3

/-- Witness for C8: a concrete returned row has a non-null `ru_name`. -/
theorem claim_C8_no_null_localized_witness : frRow.ru_name ≠ none :=
  claim_C8_no_null_localized exDb none none frRow
    (List.mem_mergeSort.mpr (by decide))

/-! ## C6: the favorites flag -/

/-- The row update performed by the `UPDATE cities SET favorite` statement. -/
def favUpdate (city_id : Int) (is_favorite : Bool) (r : CityRow) : CityRow :=
  if r.id == city_id then { r with favorite := if is_favorite then 1 else 0 }
  else r

/-- `update_city_favorite`, restated through `favUpdate`. -/
theorem update_city_favorite_eq_map (db : Database) (c : Int) (b : Bool) :
    db.update_city_favorite c b = { db with cities := db.cities.map (favUpdate c b) } :=
  rfl

/-- After the update, the first row found for an existing id carries the
written flag. -/
theorem find_favUpdate_of_mem (l : List CityRow) (c : Int) (b : Bool)
    (h : ∃ r ∈ l, r.id = c) :
    ((l.map (favUpdate c b)).find? (fun r => r.id == c)).map
        (fun r => r.favorite) = some (if b then 1 else 0) := by
  induction l with
  | nil => simp at h
  | cons a t ih =>
    by_cases hc : a.id = c
    · have ha : favUpdate c b a = { a with favorite := if b then 1 else 0 } := by
        simp [favUpdate, hc]
      rw [List.map_cons, ha, List.find?_cons_of_pos _ (by simp [hc])]
      rfl
    · have ha : favUpdate c b a = a := by simp [favUpdate, hc]
      have ht : ∃ r ∈ t, r.id = c := by
        rcases h with ⟨r, hr, hid⟩
        rcases List.mem_cons.mp hr with rfl | hrt
        · exact absurd hid hc
        · exact ⟨r, hrt, hid⟩
      rw [List.map_cons, ha, List.find?_cons_of_neg _ (by simp [hc])]
      exact ih ht

/-- **C6**: writing the favorite flag of an existing city and reading it back
returns the written boolean; for an id outside the catalog, the read returns
false without error and the write changes nothing (a no-op, not an error). -/
theorem claim_C6_favorites_roundtrip (db : Database) (c : Int) (b : Bool) :
    ((∃ r ∈ db.cities, r.id = c) →
      (db.update_city_favorite c b).is_city_favorite c = b) ∧
    ((∀ r ∈ db.cities, r.id ≠ c) →
      db.is_city_favorite c = false ∧ db.update_city_favorite c b = db) := by
  constructor
  · intro h
    have hf := find_favUpdate_of_mem db.cities c b h
    unfold Database.is_city_favorite
    rw [update_city_favorite_eq_map]
    rcases hfind : (db.cities.map (favUpdate c b)).find? (fun r => r.id == c) with
      _ | r
    · rw [hfind] at hf; simp at hf
    · rw [hfind] at hf
      simp at hf
      simp only [hfind]
      rw [hf]
      cases b <;> decide
  · intro h
    constructor
    · have : db.cities.find? (fun r => r.id == c) = none := by
        rw [List.find?_eq_none]
        intro r hr
        simpa using h r hr
      simp only [Database.is_city_favorite, this]
    · rw [update_city_favorite_eq_map]
      have key : ∀ l : List CityRow, (∀ r ∈ l, r.id ≠ c) →
          l.map (favUpdate c b) = l := by
        intro l
        induction l with
        | nil => intro _; rfl
        | cons a t ih =>
          intro hl
          have ha : favUpdate c b a = a := by
            simp [favUpdate, hl a (List.mem_cons_self a t)]
          rw [List.map_cons, ha, ih (fun r hr => hl r (List.mem_cons_of_mem a hr))]
      rw [key db.cities h]

/-- Witness for C6: a present id round-trips the flag; an absent id reads
false and the write is a no-op. -/
theorem claim_C6_favorites_roundtrip_witness :
    ((exDb.update_city_favorite 2 true).is_city_favorite 2 = true) ∧
    (exDb.is_city_favorite 99 = false ∧
      exDb.update_city_favorite 99 false = exDb) :=
  ⟨(claim_C6_favorites_roundtrip exDb 2 true).1 (by decide),
   (claim_C6_favorites_roundtrip exDb 99 false).2 (by decide)⟩

/-! ## C7: the settings upsert -/

/-- The row update performed by the `DO UPDATE SET setting_value` branch. -/
def setUpdate (n v : String) (p : SettingRow) : SettingRow :=
  if p.setting_name == n then { p with setting_value := v } else p

/-- `set_setting`, restated through `setUpdate`. -/
theorem set_setting_eq (db : Database) (n v : String) :
    db.set_setting n v =
      { db with
        settings :=
          if db.settings.any (fun p => p.setting_name == n) then
            db.settings.map (setUpdate n v)
          else db.settings ++ [{ setting_name := n, setting_value := v }] } :=
  rfl

/-- After the `DO UPDATE` branch, the first row found for the name carries
the written value. -/
theorem find_setUpdate_of_any (l : List SettingRow) (n v : String)
    (h : l.any (fun p => p.setting_name == n) = true) :
    ((l.map (setUpdate n v)).find? (fun p => p.setting_name == n)).map
        (fun p => p.setting_value) = some v := by
  induction l with
  | nil => simp at h
  | cons a t ih =>
    by_cases hc : a.setting_name == n
    · have ha : setUpdate n v a = { a with setting_value := v } := by
        simp [setUpdate, hc]
      rw [List.map_cons, ha, List.find?_cons_of_pos _ (by simpa using hc)]
      rfl
    · have ha : setUpdate n v a = a := by simp_all [setUpdate]
      have ht : t.any (fun p => p.setting_name == n) = true := by
        rw [List.any_cons] at h
        rcases Bool.or_eq_true_iff.mp h with h' | h'
        · exact absurd h' hc
        · exact h'
      rw [List.map_cons, ha, List.find?_cons_of_neg _ (by simpa using hc)]
      exact ih ht

/-- After the insert branch, the (only) appended row is found. -/
theorem find_append_single (l : List SettingRow) (n v : String)
    (h : l.any (fun p => p.setting_name == n) = false) :
    (l ++ [({ setting_name := n, setting_value := v } : SettingRow)]).find?
        (fun p => p.setting_name == n) =
      some ({ setting_name := n, setting_value := v } : SettingRow) := by
  induction l with
  | nil => rw [List.nil_append, List.find?_cons_of_pos _ (by simp)]
  | cons a t ih =>
    rw [List.any_cons] at h
    rcases Bool.or_eq_false_iff.mp h with ⟨h1, h2⟩
    rw [List.cons_append, List.find?_cons_of_neg _ (by simp [h1])]
    exact ih h2

/-- Reading a setting straight after writing it returns the written value,
whether the write inserted or updated. -/
theorem get_setting_set_setting (db : Database) (n v : String) :
    (db.set_setting n v).get_setting n = some v := by
  rw [set_setting_eq]
  unfold Database.get_setting
  by_cases h : db.settings.any (fun p => p.setting_name == n)
  · simpa [h] using find_setUpdate_of_any db.settings n v h
  · simp only [Bool.not_eq_true] at h
    rw [if_neg (by simp [h]), find_append_single db.settings n v h]
    rfl

/-- The updating branch does not change how many rows carry the name. -/
theorem countP_map_setUpdate (l : List SettingRow) (n v : String) :
    (l.map (setUpdate n v)).countP (fun p => p.setting_name == n) =
      l.countP (fun p => p.setting_name == n) := by
  induction l with
  | nil => rfl
  | cons a t ih =>
    by_cases hc : a.setting_name == n
    · have ha : setUpdate n v a = { a with setting_value := v } := by
        simp [setUpdate, hc]
      simp [List.countP_cons, ha, ih, hc]
    · have ha : setUpdate n v a = a := by simp_all [setUpdate]
      simp [List.countP_cons, ha, ih]

/-- `set_setting` leaves exactly one row for the written name, provided the
`UNIQUE` invariant (at most one row per name) held beforehand. -/
theorem countP_set_setting (db : Database) (n v : String)
    (h : db.settings.countP (fun p => p.setting_name == n) ≤ 1) :
    (db.set_setting n v).settings.countP
        (fun p => p.setting_name == n) = 1 := by
  rw [set_setting_eq]
  by_cases hany : db.settings.any (fun p => p.setting_name == n)
  · have hpos : 0 < db.settings.countP (fun p => p.setting_name == n) :=
      List.countP_pos_iff.mpr (by simpa using List.any_eq_true.mp hany)
    simp only [hany, if_true, countP_map_setUpdate]
    omega
  · simp only [Bool.not_eq_true] at hany
    have hzero : db.settings.countP (fun p => p.setting_name == n) = 0 := by
      rw [List.countP_eq_zero]
      intro p hp
      have := List.any_eq_false.mp hany p hp
      simpa using this
    simp [hany, List.countP_append, hzero, List.countP_cons]

/-- **C7**: two writes to the same setting name followed by a read return the
second value; with the `UNIQUE` invariant in force beforehand, exactly one
row for the name remains (upsert, never a duplicate insert); reading a name
never written returns `None` rather than raising. -/
theorem claim_C7_settings_upsert (db : Database) (name v1 v2 : String) :
    ((db.set_setting name v1).set_setting name v2).get_setting name =
        some v2 ∧
    (db.settings.countP (fun p => p.setting_name == name) ≤ 1 →
      ((db.set_setting name v1).set_setting name v2).settings.countP
          (fun p => p.setting_name == name) = 1) ∧
    ((∀ p ∈ db.settings, p.setting_name ≠ name) →
      db.get_setting name = none) := by
  refine ⟨get_setting_set_setting _ _ _, ?_, ?_⟩
  · intro h
    exact countP_set_setting _ name v2
      (le_of_eq (countP_set_setting db name v1 h))
  · intro h
    unfold Database.get_setting
    have : db.settings.find? (fun p => p.setting_name == name) = none := by
      rw [List.find?_eq_none]
      intro p hp
      simpa using h p hp
    simp [this]

/-- Witness for C7 at a concrete store. -/
theorem claim_C7_settings_upsert_witness :
    ((exDb.set_setting "OPEN_WEATHER_MAP_API_KEY" "k1").set_setting
        "OPEN_WEATHER_MAP_API_KEY" "k2").get_setting
        "OPEN_WEATHER_MAP_API_KEY" = some "k2" ∧
    ((exDb.set_setting "OPEN_WEATHER_MAP_API_KEY" "k1").set_setting
        "OPEN_WEATHER_MAP_API_KEY" "k2").settings.countP
        (fun p => p.setting_name == "OPEN_WEATHER_MAP_API_KEY") = 1 ∧
    exDb.get_setting "OPEN_WEATHER_MAP_API_KEY" = none :=
  ⟨(claim_C7_settings_upsert exDb "OPEN_WEATHER_MAP_API_KEY" "k1" "k2").1,
   (claim_C7_settings_upsert exDb "OPEN_WEATHER_MAP_API_KEY" "k1" "k2").2.1
     (by decide),
   (claim_C7_settings_upsert exDb "OPEN_WEATHER_MAP_API_KEY" "k1" "k2").2.2
     (by decide)⟩

/-! ## C5: the per-date forecast aggregation -/

/-- Full characterisation of the inner loop: folding `aggStep` over the
samples computes, for the matching samples, the running float minimum of
`temp_min` and maximum of `temp_max`, and keeps the description/icon of the
last matching sample timestamped `12:00:00` (the accumulator's value when
there is none). -/
theorem foldl_aggStep_char (td : String) (samples : List ForecastSample)
    (acc : DayAgg) :
    samples.foldl (aggStep td) acc =
      { min_temp :=
          ((samples.filter (fun e => sampleDate e == td)).map
              (fun e => PFloat.val e.temp_min)).foldl PFloat.pmin acc.min_temp
        max_temp :=
          ((samples.filter (fun e => sampleDate e == td)).map
              (fun e => PFloat.val e.temp_max)).foldl PFloat.pmax acc.max_temp
        description :=
          ((samples.filter (fun e =>
                sampleDate e == td && pyEndsWith e.dt_txt "12:00:00")).map
              (fun e => e.description)).foldl (fun _ d => d) acc.description
        icon_url :=
          ((samples.filter (fun e =>
                sampleDate e == td && pyEndsWith e.dt_txt "12:00:00")).map
              (fun e => iconUrl e.icon)).foldl (fun _ d => d) acc.icon_url } := by
  induction samples generalizing acc with
  | nil => rfl
  | cons a t ih =>
    rw [List.foldl_cons, ih (aggStep td acc a)]
    by_cases h1 : sampleDate a == td
    · by_cases h2 : pyEndsWith a.dt_txt "12:00:00"
      · simp [aggStep, h1, h2, List.filter_cons]
      · simp [aggStep, h1, h2, List.filter_cons]
    · simp [aggStep, h1, List.filter_cons]

/-- Python `min` on two finite floats is the rational minimum. -/
theorem pmin_val_val (a b : ℚ) :
    PFloat.pmin (.val a) (.val b) = .val (min a b) := by
  by_cases h : b < a
  · simp [PFloat.pmin, PFloat.plt, h, min_def, not_le.mpr h]
  · simp [PFloat.pmin, PFloat.plt, h, min_def, not_lt.mp h]

/-- Python `max` on two finite floats is the rational maximum. -/
theorem pmax_val_val (a b : ℚ) :
    PFloat.pmax (.val a) (.val b) = .val (max a b) := by
  by_cases h : a < b
  · simp [PFloat.pmax, PFloat.plt, h, max_def, le_of_lt h]
  · simp [PFloat.pmax, PFloat.plt, h, max_def, not_lt.mp h]

/-- Folding the Python float minimum from a finite seed stays finite and
agrees with the rational minimum. -/
theorem foldl_pmin_map (f : ForecastSample → ℚ) (x : ℚ)
    (t : List ForecastSample) :
    List.foldl PFloat.pmin (PFloat.val x) (t.map (fun e => PFloat.val (f e))) =
      PFloat.val (List.foldl min x (t.map f)) := by
  induction t generalizing x with
  | nil => rfl
  | cons a s ih =>
    rw [List.map_cons, List.foldl_cons, List.map_cons, List.foldl_cons,
      pmin_val_val, ih]

/-- Folding the Python float maximum from a finite seed stays finite and
agrees with the rational maximum. -/
theorem foldl_pmax_map (f : ForecastSample → ℚ) (x : ℚ)
    (t : List ForecastSample) :
    List.foldl PFloat.pmax (PFloat.val x) (t.map (fun e => PFloat.val (f e))) =
      PFloat.val (List.foldl max x (t.map f)) := by
  induction t generalizing x with
  | nil => rfl
  | cons a s ih =>
    rw [List.map_cons, List.foldl_cons, List.map_cons, List.foldl_cons,
      pmax_val_val, ih]

/-- **C5**: for every target calendar date, the aggregated entry's `min_temp`
is the minimum of `temp_min` over the samples whose date component matches
(`+inf` when none match), `max_temp` is the corresponding maximum (`-inf`
when none match), and the description and icon are taken exclusively from
the matching sample timestamped `12:00:00`: when it is the unique such
sample they are its description/icon, and when there is none they stay
empty. -/
theorem claim_C5_forecast_aggregation (td : String)
    (samples : List ForecastSample) :
    (aggregateDate td samples).min_temp =
      (((samples.filter (fun e => sampleDate e == td)).map
          (fun e => e.temp_min)).min?.elim PFloat.inf PFloat.val) ∧
    (aggregateDate td samples).max_temp =
      (((samples.filter (fun e => sampleDate e == td)).map
          (fun e => e.temp_max)).max?.elim PFloat.ninf PFloat.val) ∧
    (∀ s : ForecastSample,
      samples.filter (fun e =>
          sampleDate e == td && pyEndsWith e.dt_txt "12:00:00") = [s] →
      (aggregateDate td samples).description = s.description ∧
      (aggregateDate td samples).icon_url = iconUrl s.icon) ∧
    (samples.filter (fun e =>
        sampleDate e == td && pyEndsWith e.dt_txt "12:00:00") = [] →
      (aggregateDate td samples).description = "" ∧
      (aggregateDate td samples).icon_url = "") := by
  have hchar := foldl_aggStep_char td samples ⟨.inf, .ninf, "", ""⟩
  refine ⟨?_, ?_, ?_, ?_⟩
  · rw [aggregateDate, hchar]
    rcases hm : samples.filter (fun e => sampleDate e == td) with _ | ⟨x, t⟩
    · rfl
    · have h0 : PFloat.pmin PFloat.inf (.val x.temp_min) = .val x.temp_min := by
        simp [PFloat.pmin, PFloat.plt]
      dsimp only
      rw [List.map_cons, List.map_cons, List.foldl_cons, List.min?_cons', h0,
        foldl_pmin_map (fun e => e.temp_min) x.temp_min t]
      rfl
  · rw [aggregateDate, hchar]
    rcases hm : samples.filter (fun e => sampleDate e == td) with _ | ⟨x, t⟩
    · rfl
    · have h0 : PFloat.pmax PFloat.ninf (.val x.temp_max) = .val x.temp_max := by
        simp [PFloat.pmax, PFloat.plt]
      dsimp only
      rw [List.map_cons, List.map_cons, List.foldl_cons, List.max?_cons', h0,
        foldl_pmax_map (fun e => e.temp_max) x.temp_max t]
      rfl
  · intro s hs
    rw [aggregateDate, hchar]
    simp [hs]
  · intro hs
    rw [aggregateDate, hchar]
    simp [hs]

/-- The spec's aggregation example: four matching samples with `temp_min`
values `[1, 3, 2, 0]` and `temp_max` values `[10, 12, 9, 11]`, the third
timestamped `12:00:00`. -/
def forecastSamplesEx : List ForecastSample :=
  [⟨"2024-01-02 00:00:00", 1, 10, "утро", "01d"⟩,
   ⟨"2024-01-02 06:00:00", 3, 12, "день", "02d"⟩,
   ⟨"2024-01-02 12:00:00", 2, 9, "пасмурно", "03d"⟩,
   ⟨"2024-01-02 18:00:00", 0, 11, "вечер", "04d"⟩]

/-- Witness for C5 at the spec's example: `min=0`, `max=12`, description and
icon from the `12:00:00` sample. -/
theorem claim_C5_forecast_aggregation_witness :
    (aggregateDate "2024-01-02" forecastSamplesEx).min_temp = PFloat.val 0 ∧
    (aggregateDate "2024-01-02" forecastSamplesEx).max_temp = PFloat.val 12 ∧
    (aggregateDate "2024-01-02" forecastSamplesEx).description = "пасмурно" ∧
    (aggregateDate "2024-01-02" forecastSamplesEx).icon_url = iconUrl "03d" := by
  have h := claim_C5_forecast_aggregation "2024-01-02" forecastSamplesEx
  have h12 := h.2.2.1 ⟨"2024-01-02 12:00:00", 2, 9, "пасмурно", "03d"⟩ (by decide)
  exact ⟨h.1.trans (by decide), h.2.1.trans (by decide), h12.1, h12.2⟩

/-! ## C2: forecast entries for dates without a `12:00:00` sample -/

/-- A database whose settings store carries an API key. -/
def dbWithKey : Database :=
  Database.set_setting ⟨[], []⟩ "OPEN_WEATHER_MAP_API_KEY" "valid-key"

/-- The `WeatherAPI` instance constructed from `dbWithKey`. -/
def apiK : WeatherAPI := weatherAPIInit dbWithKey

/-- An icon CDN that answers every request with a 200 image. -/
def okIconEnv200 : String → Option RequestParams →
    Except ReqErr (HttpResp String) :=
  fun _ _ => .ok ⟨200, "png"⟩

/-- A forecast body with a single 09:00 sample on the first target date and
no `12:00:00` sample at all. -/
def oneSampleList : List ForecastSample :=
  [⟨"2024-01-02 09:00:00", 5, 7, "облачно", "03d"⟩]

/-- A forecast endpoint answering 200 with `oneSampleList`. -/
def fEnvOne : String → Option RequestParams →
    Except ReqErr (HttpResp ForecastResponse) :=
  fun _ _ => .ok ⟨200, ⟨some oneSampleList⟩⟩

/-- **C2**: at a forecast response whose first target date has a matching
sample but no `12:00:00` sample, the accumulated icon URL stays empty, so
`requests.get("")` raises `MissingSchema` and the whole fetch fails with a
`RuntimeError` — no 3-entry result is produced, contradicting the documented
"accepted, not an error" behaviour (and the `±inf` sentinel entries for
unmatched dates are unreachable for the same reason). -/
theorem claim_C2_missing_midday_raises :
    fetch_forecast_by_city_id apiK 524894 ⟨2024, 1, 1⟩ fEnvOne okIconEnv200 =
      .error (.runtimeRequestError .missingSchema) := by
  rfl

/-! ## Fixtures for the current-weather claims -/

/-- A database with no API key configured. -/
def dbNoKey : Database := ⟨[], []⟩

/-- A current-weather body with every field absent. -/
def emptyCurrentResponse : CurrentResponse :=
  ⟨none, none, none, none, none, none, none, none⟩

/-- An endpoint answering 401 Unauthorized to every request. -/
def env401 : String → Option RequestParams →
    Except ReqErr (HttpResp CurrentResponse) :=
  fun _ _ => .ok ⟨401, emptyCurrentResponse⟩

/-- A complete, well-formed current-weather body. -/
def respFull : CurrentResponse :=
  { name := some "Москва"
    sys := some ⟨some "RU", some 28800, some 72000⟩
    main := some ⟨some 5, some 3, some 2, some 7, some 1012, some 80⟩
    visibility := some 10000
    wind := some ⟨some 4, some 180, none⟩
    weather := some [⟨some "ясно", some "01d"⟩]
    clouds := some ⟨some 0⟩
    timezone := some 10800 }

/-- `respFull` with the required city name deleted. -/
def respNoName : CurrentResponse := { respFull with name := none }

/-- An endpoint answering 200 with `respFull`. -/
def wEnvFull : String → Option RequestParams →
    Except ReqErr (HttpResp CurrentResponse) :=
  fun _ _ => .ok ⟨200, respFull⟩

/-- An endpoint answering 200 with `respNoName`. -/
def wEnvNoName : String → Option RequestParams →
    Except ReqErr (HttpResp CurrentResponse) :=
  fun _ _ => .ok ⟨200, respNoName⟩

/-- The `weather_info` produced from `respFull` (with `okIconEnv200`'s image
bytes as the pixmap). -/
def sampleInfo : WeatherInfo :=
  { city := "Москва", country := "RU", temperature := some 5
    feels_like := some 3, temp_min := some 2, temp_max := some 7
    pressure := some 1012, humidity := some 80, visibility := some 10000
    wind_speed := some 4, wind_deg := some 180, wind_gust := none
    description := "ясно", icon := "01d", clouds := some 0
    sunrise := "08:00:00", sunset := "20:00:00", timezone := some 10800
    pixmap := "png" }

/-! ## C1: missing required fields are silently defaulted -/

/-- Counterexample to C1 as stated: a 2xx response from which the required
city name is absent does not fail with an error naming the field — the fetch
succeeds and silently substitutes the default `"Неизвестный город"`. -/
theorem claim_C1_counterexample :
    (fetch_weather_by_city_id apiK 524894 wEnvNoName okIconEnv200).toOption.map
        (fun i => i.city) = some "Неизвестный город" := by
  rfl

/-- **C1 (amended)**: on a 2xx response whose container objects (`sys`,
`main`, `wind`, `weather`, `clouds`) and `sys.sunrise`/`sys.sunset` are
present and whose icon fetch succeeds, the fetch succeeds even when the
required leaf fields are missing: the city name defaults to
`"Неизвестный город"`, the temperature to `None`, and the description to
`"Описание не найдено"`; the optional visibility and wind gust map to
`None` exactly as the source's `.get(..., None)` reads them. -/
theorem claim_C1_required_fields_defaulted (db : Database) (c : Int)
    (wEnv : String → Option RequestParams →
      Except ReqErr (HttpResp CurrentResponse))
    (iconEnv : String → Option RequestParams → Except ReqErr (HttpResp String))
    (resp : CurrentResponse) (st : Nat) (sys : SysObj) (main : MainObj)
    (wind : WindObj) (w : WeatherObj) (ws : List WeatherObj)
    (clouds : CloudsObj) (t1 t2 : Int) (ist : Nat) (ib : String)
    (hw : wEnv (weatherAPIInit db).base_url
        (some (mkRequestParams (weatherAPIInit db) c)) = .ok ⟨st, resp⟩)
    (hst : st < 400)
    (hsys : resp.sys = some sys) (ht1 : sys.sunrise = some t1)
    (ht2 : sys.sunset = some t2) (hmain : resp.main = some main)
    (hwind : resp.wind = some wind) (hweather : resp.weather = some (w :: ws))
    (hclouds : resp.clouds = some clouds)
    (hicon : iconEnv (iconUrl (w.icon.getD "")) none = .ok ⟨ist, ib⟩)
    (hist : ist < 400) :
    fetch_weather_by_city_id (weatherAPIInit db) c wEnv iconEnv = .ok
      { city := resp.name.getD "Неизвестный город"
        country := sys.country.getD "Неизвестная страна"
        temperature := main.temp
        feels_like := main.feels_like
        temp_min := main.temp_min
        temp_max := main.temp_max
        pressure := main.pressure
        humidity := main.humidity
        visibility := resp.visibility
        wind_speed := wind.speed
        wind_deg := wind.deg
        wind_gust := wind.gust
        description := w.description.getD "Описание не найдено"
        icon := w.icon.getD ""
        clouds := clouds.all
        sunrise := fmtTimeUTC t1
        sunset := fmtTimeUTC t2
        timezone := resp.timezone
        pixmap := ib } := by
  simp only [fetch_weather_by_city_id, requestsGet, raiseForStatus,
    parseCurrentWeather, getKey,
    show hasScheme (weatherAPIInit db).base_url = true from rfl, if_true]
  rw [hw]
  simp [Bind.bind, Except.bind, Except.mapError, Pure.pure, Except.pure,
    hsys, ht1, ht2, hmain, hwind, hweather, hclouds, hicon,
    Nat.not_le.mpr hst, Nat.not_le.mpr hist,
    show hasScheme (iconUrl (w.icon.getD "")) = true from rfl]

/-- Witness for the amended C1 at `respNoName`. -/
theorem claim_C1_required_fields_defaulted_witness :
    fetch_weather_by_city_id apiK 524894 wEnvNoName okIconEnv200 = .ok
      { sampleInfo with city := "Неизвестный город" } :=
  claim_C1_required_fields_defaulted dbWithKey 524894 wEnvNoName okIconEnv200
    respNoName 200 ⟨some "RU", some 28800, some 72000⟩
    ⟨some 5, some 3, some 2, some 7, some 1012, some 80⟩
    ⟨some 4, some 180, none⟩ ⟨some "ясно", some "01d"⟩ [] ⟨some 0⟩
    28800 72000 200 "png" rfl (by decide) rfl rfl rfl rfl rfl rfl rfl rfl
    (by decide)

/-! ## C3: there is no API-key pre-check -/

/-- Counterexample to C3 as stated: with no key configured, no `ConfigError`
is raised before the network call — the fetch reaches the transport and, on
a 401, fails with the upstream `RuntimeError`; on a 200 it even succeeds. -/
theorem claim_C3_counterexample :
    (weatherAPIInit dbNoKey).api_key = none ∧
    fetch_weather_by_city_id (weatherAPIInit dbNoKey) 524894 env401
        okIconEnv200 = .error (.runtimeRequestError (.httpError 401)) ∧
    fetch_weather_by_city_id (weatherAPIInit dbNoKey) 524894 wEnvFull
        okIconEnv200 = .ok sampleInfo :=
  ⟨rfl, rfl, rfl⟩

/-- **C3 (amended)**: no API-key validation exists anywhere; when the
configured key is missing or empty, the request is still issued with that
key (its `appid` is empty) and the failure surfaces only as the upstream
HTTP error wrapped in `RuntimeError` — e.g. a 401 — never as a pre-network
`ConfigError`. -/
theorem claim_C3_no_key_precheck (db : Database) (c : Int)
    (wEnv : String → Option RequestParams →
      Except ReqErr (HttpResp CurrentResponse))
    (iconEnv : String → Option RequestParams → Except ReqErr (HttpResp String))
    (st : Nat) (body : CurrentResponse)
    (hkey : (db.get_setting "OPEN_WEATHER_MAP_API_KEY").getD "" = "")
    (hw : wEnv (weatherAPIInit db).base_url
        (some (mkRequestParams (weatherAPIInit db) c)) = .ok ⟨st, body⟩)
    (hst : 400 ≤ st) :
    ((mkRequestParams (weatherAPIInit db) c).appid).getD "" = "" ∧
    fetch_weather_by_city_id (weatherAPIInit db) c wEnv iconEnv =
      .error (.runtimeRequestError (.httpError st)) := by
  constructor
  · simpa [mkRequestParams, weatherAPIInit] using hkey
  · simp only [fetch_weather_by_city_id, requestsGet, raiseForStatus,
      show hasScheme (weatherAPIInit db).base_url = true from rfl, if_true]
    rw [hw]
    simp [Bind.bind, Except.bind, Except.mapError, hst]

/-- Witness for the amended C3 at the empty settings store and the
401-answering endpoint. -/
theorem claim_C3_no_key_precheck_witness :
    ((mkRequestParams (weatherAPIInit dbNoKey) 524894).appid).getD "" = "" ∧
    fetch_weather_by_city_id (weatherAPIInit dbNoKey) 524894 env401
        okIconEnv200 = .error (.runtimeRequestError (.httpError 401)) :=
  claim_C3_no_key_precheck dbNoKey 524894 env401 okIconEnv200 401
    emptyCurrentResponse rfl rfl (by decide)

/-! ## C10: the API key is captured once, at construction -/

/-- **C10**: the `appid` is read from the settings store at `__init__` and
captured in `default_params`; every request of the instance carries that
captured value.  Concretely: (1) the captured `appid` is the setting at
construction time; (2) so is the `appid` of every request's parameters;
(3) a later `set_setting` does store the new key; (4) yet the instance's
requests still carry the old value; (5)/(6) both fetch operations depend on
the transport only at parameters whose `appid` is the captured key, so
swapping the environment anywhere else changes nothing. -/
theorem claim_C10_key_captured_at_construction (db : Database) (v : String)
    (c : Int) (today : Date)
    (wEnv wEnv' : String → Option RequestParams →
      Except ReqErr (HttpResp CurrentResponse))
    (fEnv fEnv' : String → Option RequestParams →
      Except ReqErr (HttpResp ForecastResponse))
    (iconEnv : String → Option RequestParams → Except ReqErr (HttpResp String)) :
    (weatherAPIInit db).default_params.appid =
        db.get_setting "OPEN_WEATHER_MAP_API_KEY" ∧
    (mkRequestParams (weatherAPIInit db) c).appid =
        db.get_setting "OPEN_WEATHER_MAP_API_KEY" ∧
    (db.set_setting "OPEN_WEATHER_MAP_API_KEY" v).get_setting
        "OPEN_WEATHER_MAP_API_KEY" = some v ∧
    (db.get_setting "OPEN_WEATHER_MAP_API_KEY" ≠ some v →
      (mkRequestParams (weatherAPIInit db) c).appid ≠
        (db.set_setting "OPEN_WEATHER_MAP_API_KEY" v).get_setting
          "OPEN_WEATHER_MAP_API_KEY") ∧
    ((∀ url q, q.appid = db.get_setting "OPEN_WEATHER_MAP_API_KEY" →
        wEnv url (some q) = wEnv' url (some q)) →
      fetch_weather_by_city_id (weatherAPIInit db) c wEnv iconEnv =
        fetch_weather_by_city_id (weatherAPIInit db) c wEnv' iconEnv) ∧
    ((∀ url q, q.appid = db.get_setting "OPEN_WEATHER_MAP_API_KEY" →
        fEnv url (some q) = fEnv' url (some q)) →
      fetch_forecast_by_city_id (weatherAPIInit db) c today fEnv iconEnv =
        fetch_forecast_by_city_id (weatherAPIInit db) c today fEnv' iconEnv) := by
  refine ⟨rfl, rfl, get_setting_set_setting db _ v, ?_, ?_, ?_⟩
  · intro hne
    rw [get_setting_set_setting db _ v]
    exact hne
  · intro h
    simp only [fetch_weather_by_city_id, requestsGet]
    rw [h (weatherAPIInit db).base_url (mkRequestParams (weatherAPIInit db) c)
      rfl]
  · intro h
    simp only [fetch_forecast_by_city_id, requestsGet]
    rw [h (weatherAPIInit db).forecast_url
      (mkRequestParams (weatherAPIInit db) c) rfl]

/-- Witness for C10 at the empty settings store and a fresh key `"k2"`. -/
theorem claim_C10_key_captured_at_construction_witness :
    (weatherAPIInit dbNoKey).default_params.appid =
        dbNoKey.get_setting "OPEN_WEATHER_MAP_API_KEY" ∧
    (mkRequestParams (weatherAPIInit dbNoKey) 524894).appid =
        dbNoKey.get_setting "OPEN_WEATHER_MAP_API_KEY" ∧
    (dbNoKey.set_setting "OPEN_WEATHER_MAP_API_KEY" "k2").get_setting
        "OPEN_WEATHER_MAP_API_KEY" = some "k2" ∧
    (mkRequestParams (weatherAPIInit dbNoKey) 524894).appid ≠
        (dbNoKey.set_setting "OPEN_WEATHER_MAP_API_KEY" "k2").get_setting
          "OPEN_WEATHER_MAP_API_KEY" ∧
    fetch_weather_by_city_id (weatherAPIInit dbNoKey) 524894 env401
        okIconEnv200 =
      fetch_weather_by_city_id (weatherAPIInit dbNoKey) 524894 env401
        okIconEnv200 ∧
    fetch_forecast_by_city_id (weatherAPIInit dbNoKey) 524894 ⟨2024, 1, 1⟩
        fEnvOne okIconEnv200 =
      fetch_forecast_by_city_id (weatherAPIInit dbNoKey) 524894 ⟨2024, 1, 1⟩
        fEnvOne okIconEnv200 := by
  have h := claim_C10_key_captured_at_construction dbNoKey "k2" 524894
    ⟨2024, 1, 1⟩ env401 env401 fEnvOne fEnvOne okIconEnv200
  exact ⟨h.1, h.2.1, h.2.2.1, h.2.2.2.1 (by decide),
    h.2.2.2.2.1 (fun _ _ _ => rfl), h.2.2.2.2.2 (fun _ _ _ => rfl)⟩

/-! ## C4: the fetch orchestration -/

/-- A 3-day forecast body with a `12:00:00` sample on each target date. -/
def fullForecastSamples : List ForecastSample :=
  [⟨"2024-01-02 12:00:00", 5, 7, "ясно", "01d"⟩,
   ⟨"2024-01-03 12:00:00", 4, 8, "дождь", "09d"⟩,
   ⟨"2024-01-04 12:00:00", 3, 9, "снег", "13d"⟩]

/-- A forecast endpoint answering 200 with `fullForecastSamples`. -/
def fEnvFull3 : String → Option RequestParams →
    Except ReqErr (HttpResp ForecastResponse) :=
  fun _ _ => .ok ⟨200, ⟨some fullForecastSamples⟩⟩

/-- The three entries derived from `fullForecastSamples` on 2024-01-01. -/
def threeEntries : List ForecastEntry :=
  [⟨"2024-01-02", .val 5, .val 7, "ясно", "png"⟩,
   ⟨"2024-01-03", .val 4, .val 8, "дождь", "png"⟩,
   ⟨"2024-01-04", .val 3, .val 9, "снег", "png"⟩]

/-- Counterexample to C4 as stated: with prior `Ready` data on screen and a
failing current-weather fetch, the display ends on the loading screen — the
prior `Ready` data does not stay displayed, and the trace carries no publish
and no error-surfacing event (the worker thread dies silently). -/
theorem claim_C4_counterexample :
    update_weather (Display.ready sampleInfo threeEntries) apiK 524894
        ⟨2024, 1, 1⟩ env401 fEnvOne okIconEnv200 =
      (Display.loading, [UIEvent.callCurrent]) ∧
    Display.loading ≠ Display.ready sampleInfo threeEntries :=
  ⟨rfl, by decide⟩

/-- **C4 (amended)**: within one `update_weather` request the current-weather
fetch runs before the forecast fetch (the forecast is not even attempted when
the first fails), `update_weather_ui` is queued only when both succeed, and
on failure of either fetch the orchestrator does not reach `Ready` — but the
error is not surfaced to the presentation layer (the worker thread's
exception is unhandled) and the loading indicator, which synchronously
replaced any prior `Ready` data when the request started, remains
displayed. -/
theorem claim_C4_orchestration (prior : Display) (api : WeatherAPI) (c : Int)
    (today : Date)
    (wEnv : String → Option RequestParams →
      Except ReqErr (HttpResp CurrentResponse))
    (fEnv : String → Option RequestParams →
      Except ReqErr (HttpResp ForecastResponse))
    (iconEnv : String → Option RequestParams → Except ReqErr (HttpResp String)) :
    (∀ e, fetch_weather_by_city_id api c wEnv iconEnv = .error e →
      update_weather prior api c today wEnv fEnv iconEnv =
        (Display.loading, [UIEvent.callCurrent])) ∧
    (∀ w e, fetch_weather_by_city_id api c wEnv iconEnv = .ok w →
      fetch_forecast_by_city_id api c today fEnv iconEnv = .error e →
      update_weather prior api c today wEnv fEnv iconEnv =
        (Display.loading, [UIEvent.callCurrent, UIEvent.callForecast])) ∧
    (∀ w f, fetch_weather_by_city_id api c wEnv iconEnv = .ok w →
      fetch_forecast_by_city_id api c today fEnv iconEnv = .ok f →
      update_weather prior api c today wEnv fEnv iconEnv =
        (Display.ready w f,
         [UIEvent.callCurrent, UIEvent.callForecast,
          UIEvent.publish w f])) := by
  refine ⟨?_, ?_, ?_⟩
  · intro e he
    unfold update_weather fetch_and_update
    rw [he]
    rfl
  · intro w e hwk hf
    unfold update_weather fetch_and_update
    rw [hwk, hf]
    rfl
  · intro w f hwk hf
    unfold update_weather fetch_and_update
    rw [hwk, hf]
    rfl

/-- Witness for the amended C4: the failing path ends on the loading screen
with no publish; the fully successful path publishes and reaches `Ready`. -/
theorem claim_C4_orchestration_witness :
    update_weather (Display.ready sampleInfo threeEntries) apiK 524894
        ⟨2024, 1, 1⟩ env401 fEnvOne okIconEnv200 =
      (Display.loading, [UIEvent.callCurrent]) ∧
    update_weather Display.loading apiK 524894 ⟨2024, 1, 1⟩ wEnvFull fEnvFull3
        okIconEnv200 =
      (Display.ready sampleInfo threeEntries,
       [UIEvent.callCurrent, UIEvent.callForecast,
        UIEvent.publish sampleInfo threeEntries]) :=
  ⟨(claim_C4_orchestration (Display.ready sampleInfo threeEntries) apiK 524894
      ⟨2024, 1, 1⟩ env401 fEnvOne okIconEnv200).1
      (.runtimeRequestError (.httpError 401)) rfl,
   (claim_C4_orchestration Display.loading apiK 524894 ⟨2024, 1, 1⟩ wEnvFull
      fEnvFull3 okIconEnv200).2.2 sampleInfo threeEntries rfl rfl⟩

end WeatherApp
